import Mathlib

/-!
Verification development for the Mermaid flowchart service (`src/app.py`).

The service is a small Flask app with two JSON endpoints.  `POST /generate`
resolves a process description from either an uploaded `.docx` file or a
plain-text form field, then calls an LLM to synthesize Mermaid flowchart code.
`POST /refine` takes a current Mermaid diagram plus a natural-language
instruction and calls the LLM to produce an updated diagram.  Both paths share
the same sanitization of the LLM reply (trim, strip a leading fenced-code-block
marker, strip a trailing fence marker) and the same validation (the result must
start with the keyword `graph`).

The shallow embedding below models Python strings as `List Char`.  The LLM
round trip is modelled by an oracle parameter of type
`Except (List Char) (List Char)`: `Except.error e` stands for the call raising
an exception whose textual form is `e`, and `Except.ok content` stands for the
call returning a message whose content is `content`.  Each embedded function
additionally returns a `Nat` counting how many LLM network calls it performed,
so that the no-network-call properties are statable.
-/

/-- The default whitespace set stripped by the Python method `str.strip()`
(restricted to the ASCII range, which covers all inputs considered here). -/
def isPySpace (c : Char) : Bool :=
  c == ' ' || c == '\t' || c == '\n' || c == '\r' || c == '\x0b' || c == '\x0c'

/-- The Python expression `s.strip()`: remove leading and trailing whitespace. -/
def pyStrip (s : List Char) : List Char :=
  (s.dropWhile isPySpace).rdropWhile isPySpace

/-- The Python expression `s.lower()` (ASCII case folding, as used on file
names such as `"A.DOCX"`). -/
def pyLower (s : List Char) : List Char :=
  s.map Char.toLower

/-- The opening fenced-code-block marker stripped by the sanitization
(`app.py` lines 72-73 and 130-131). -/
def mermaidFenceOpen : List Char := "```mermaid".data

/-- The generic closing fence marker stripped by the sanitization
(`app.py` lines 74-75 and 132-133). -/
def fenceClose : List Char := "```".data

/-- The graph-declaration keyword checked by validation
(`app.py` lines 78 and 136). -/
def graphKeyword : List Char := "graph".data

/-- Step 2 of the sanitization (`app.py` lines 72-73): if the text starts with
the opening marker, drop the marker and strip again.  Python source:
`if mermaid_code.startswith("```mermaid"): mermaid_code = mermaid_code[len("```mermaid"):].strip()`. -/
def stripOpenFence (s : List Char) : List Char :=
  if mermaidFenceOpen.isPrefixOf s then pyStrip (s.drop mermaidFenceOpen.length) else s

/-- Step 3 of the sanitization (`app.py` lines 74-75): if the text ends with
the closing marker, drop the marker and strip again.  Python source:
`if mermaid_code.endswith("```"): mermaid_code = mermaid_code[:-len("```")].strip()`. -/
def stripCloseFence (s : List Char) : List Char :=
  if fenceClose.isSuffixOf s then pyStrip (s.rdrop fenceClose.length) else s

/-- The shared sanitization applied to every LLM reply (`app.py` lines 69-75
and 127-133): strip, remove a leading ```` ```mermaid ```` marker and restrip,
remove a trailing ```` ``` ```` marker and restrip. -/
def sanitizeReply (raw : List Char) : List Char :=
  stripCloseFence (stripOpenFence (pyStrip raw))

/-- Python truthiness of the optional API key (`if not llm_api_key`): falsy
when unset or the empty string. -/
def pyFalsyStr (key : Option (List Char)) : Bool :=
  match key with
  | none => true
  | some s => s.isEmpty

/-- `call_llm_for_initial_flowchart` (`app.py` lines 39-87).  The first
component is the returned Mermaid string, the second counts LLM network calls.
Branches: missing key gives a fixed error diagram with no call; an exception
from the call is caught and converted to an error diagram embedding the
exception text; otherwise the reply is sanitized and validated, substituting a
fixed error diagram when the sanitized reply does not start with `graph`.
Note the Python literals `"graph TD\\nError[...]"` contain a literal
backslash-n two-character sequence, not a newline. -/
def call_llm_for_initial_flowchart (llm_api_key : Option (List Char))
    (llmOutcome : Except (List Char) (List Char)) : List Char × Nat :=
  if pyFalsyStr llm_api_key then
    ("graph TD\\nError[LLM API Key Not Configured]".data, 0)
  else
    match llmOutcome with
    | Except.error e =>
        ("graph TD\\nError[Error calling LLM: ".data ++ e ++ "]".data, 1)
    | Except.ok content =>
        let mermaid_code := sanitizeReply content
        if !(graphKeyword.isPrefixOf (pyStrip mermaid_code)) then
          ("graph TD\\nError[LLM did not return valid Mermaid code]".data, 1)
        else
          (mermaid_code, 1)

/-- `call_llm_for_refinement` (`app.py` lines 90-145).  Same shape as the
initial call, but every failure branch returns `current_mermaid` with an
appended annotation.  The Python literals `"\\n%% ..."` again denote a literal
backslash-n, not a newline.  The `instruction` argument only shapes the prompt
sent to the LLM, which the oracle parameter abstracts. -/
def call_llm_for_refinement (llm_api_key : Option (List Char))
    (current_mermaid instruction : List Char)
    (llmOutcome : Except (List Char) (List Char)) : List Char × Nat :=
  if pyFalsyStr llm_api_key then
    (current_mermaid ++ "\\n%% Error: LLM API Key Not Configured".data, 0)
  else
    match llmOutcome with
    | Except.error e =>
        (current_mermaid ++ "\\n%% LLM Error: ".data ++ e, 1)
    | Except.ok content =>
        let updated_mermaid_code := sanitizeReply content
        if !(graphKeyword.isPrefixOf (pyStrip updated_mermaid_code)) then
          (current_mermaid ++ "\\n%% LLM Error: Invalid refinement response".data, 1)
        else
          (updated_mermaid_code, 1)

/-- The Python expression `sep.join(parts)` used in `extract_text_from_docx`. -/
def pyJoin (sep : List Char) : List (List Char) → List Char
  | [] => []
  | [x] => x
  | x :: y :: xs => x ++ sep ++ pyJoin sep (y :: xs)

/-- `extract_text_from_docx` (`app.py` lines 148-167).  The docx library call
`Document(file_stream)` together with the paragraph loop is modelled by an
`Except` input: `Except.error` stands for the library raising on a corrupt
file (caught, returning `None`), and `Except.ok paragraphs` yields the list of
paragraph texts, which the function joins with a newline separator. -/
def extract_text_from_docx (file_stream : Except Unit (List (List Char))) :
    Option (List Char) :=
  match file_stream with
  | Except.error _ => none
  | Except.ok paragraphs => some (pyJoin "\n".data paragraphs)

instance {ε α : Type} [DecidableEq ε] [DecidableEq α] : DecidableEq (Except ε α) := fun a b =>
  match a, b with
  | Except.error e₁, Except.error e₂ => decidable_of_iff (e₁ = e₂) (by simp)
  | Except.ok x, Except.ok y => decidable_of_iff (x = y) (by simp)
  | Except.error _, Except.ok _ => isFalse (by simp)
  | Except.ok _, Except.error _ => isFalse (by simp)

/-- An uploaded file as seen by the generate route: its filename and the
outcome of parsing its bytes as a docx document. -/
structure UploadedFile where
  filename : List Char
  stream : Except Unit (List (List Char))
deriving DecidableEq

/-- The request payload of `POST /generate`: an optional `file` part and an
optional `text` form field (`request.files` / `request.form`). -/
structure GenerateRequest where
  file : Option UploadedFile
  text : Option (List Char)
deriving DecidableEq

/-- An HTTP response of the two JSON endpoints: `ok body` is a 200 response
whose body carries the produced Mermaid code, `badRequest msg` is a 400
response whose body carries the error message. -/
inductive HttpResponse
  | ok (mermaid_code : List Char)
  | badRequest (message : List Char)
deriving DecidableEq

/-- The `POST /generate` route handler `generate_flowchart` (`app.py` lines
170-216).  The file branch takes precedence over the text field; the text
branch strips its input and rejects an empty result; when neither input is
present the request is rejected.  The second component counts LLM calls. -/
def generate_flowchart (llm_api_key : Option (List Char))
    (llmOutcome : Except (List Char) (List Char)) (req : GenerateRequest) :
    HttpResponse × Nat :=
  match req.file with
  | some f =>
    if f.filename.isEmpty then
      (HttpResponse.badRequest "No file selected.".data, 0)
    else if ".docx".data.isSuffixOf (pyLower f.filename) then
      match extract_text_from_docx f.stream with
      | none => (HttpResponse.badRequest "Error extracting text from DOCX file.".data, 0)
      | some _process_text =>
          let r := call_llm_for_initial_flowchart llm_api_key llmOutcome
          (HttpResponse.ok r.1, r.2)
    else
      (HttpResponse.badRequest "Invalid file type. Please upload a .docx file.".data, 0)
  | none =>
    match req.text with
    | some t =>
      let process_text := pyStrip t
      if process_text.isEmpty then
        (HttpResponse.badRequest "Text input cannot be empty.".data, 0)
      else
        let r := call_llm_for_initial_flowchart llm_api_key llmOutcome
        (HttpResponse.ok r.1, r.2)
    | none =>
      (HttpResponse.badRequest "No valid input provided (text or .docx file).".data, 0)

/-- The JSON object of a `POST /refine` body: the two fields the handler
reads (absent key versus present string value), plus a flag recording whether
the object holds any further keys, which determines Python dict truthiness in
the handler check `if not data`. -/
structure RefineBody where
  current_mermaid : Option (List Char)
  instruction : Option (List Char)
  extraKeys : Bool
deriving DecidableEq

/-- Python truthiness of the parsed JSON dict: truthy exactly when non-empty. -/
def dictTruthy (d : RefineBody) : Bool :=
  d.current_mermaid.isSome || d.instruction.isSome || d.extraKeys

/-- The `POST /refine` route handler `refine_flowchart` (`app.py` lines
218-247).  `data = none` models a body that does not parse as JSON
(`request.get_json()` returning `None`); an empty JSON object is parsed but
falsy, taking the same branch.  The check `if not current_mermaid or not
instruction` rejects an absent key and an empty string value alike. -/
def refine_flowchart (llm_api_key : Option (List Char))
    (llmOutcome : Except (List Char) (List Char)) (data : Option RefineBody) :
    HttpResponse × Nat :=
  match data with
  | none => (HttpResponse.badRequest "Invalid request data. Expected JSON.".data, 0)
  | some d =>
    if !(dictTruthy d) then
      (HttpResponse.badRequest "Invalid request data. Expected JSON.".data, 0)
    else
      match d.current_mermaid, d.instruction with
      | some c, some i =>
        if c.isEmpty || i.isEmpty then
          (HttpResponse.badRequest "Missing \x27current_mermaid\x27 or \x27instruction\x27 in request.".data, 0)
        else
          let r := call_llm_for_refinement llm_api_key c i llmOutcome
          (HttpResponse.ok r.1, r.2)
      | _, _ =>
        (HttpResponse.badRequest "Missing \x27current_mermaid\x27 or \x27instruction\x27 in request.".data, 0)

/-! ## Helper lemmas about stripping and sanitization -/

/-- Left-stripping a right-stripped left-stripped list changes nothing: the
head of the remaining list already fails the predicate. -/
theorem dropWhile_rdropWhile_dropWhile (p : Char → Bool) (s : List Char) :
    ((s.dropWhile p).rdropWhile p).dropWhile p = (s.dropWhile p).rdropWhile p := by
  rw [List.dropWhile_eq_self_iff]
  intro hl hp
  have hpre : (s.dropWhile p).rdropWhile p <+: s.dropWhile p :=
    List.rdropWhile_prefix p (s.dropWhile p)
  have hlen : 0 < (s.dropWhile p).length :=
    lt_of_lt_of_le hl hpre.length_le
  have hget : ((s.dropWhile p).rdropWhile p).get ⟨0, hl⟩ = (s.dropWhile p).get ⟨0, hlen⟩ := by
    simp only [List.get_eq_getElem]
    exact hpre.getElem hl
  exact List.dropWhile_get_zero_not p s hlen (hget ▸ hp)

/-- `pyStrip` is idempotent, like the Python `str.strip()`. -/
theorem pyStrip_idem (s : List Char) : pyStrip (pyStrip s) = pyStrip s := by
  unfold pyStrip
  rw [dropWhile_rdropWhile_dropWhile, List.rdropWhile_idempotent]

/-- `stripOpenFence` maps stripped lists to stripped lists. -/
theorem stripOpenFence_stripped {s : List Char} (h : pyStrip s = s) :
    pyStrip (stripOpenFence s) = stripOpenFence s := by
  unfold stripOpenFence
  split
  · exact pyStrip_idem _
  · exact h

/-- `stripCloseFence` maps stripped lists to stripped lists. -/
theorem stripCloseFence_stripped {s : List Char} (h : pyStrip s = s) :
    pyStrip (stripCloseFence s) = stripCloseFence s := by
  unfold stripCloseFence
  split
  · exact pyStrip_idem _
  · exact h

/-- Every sanitized reply is already stripped. -/
theorem sanitizeReply_stripped (raw : List Char) :
    pyStrip (sanitizeReply raw) = sanitizeReply raw :=
  stripCloseFence_stripped (stripOpenFence_stripped (pyStrip_idem raw))

/-- The source join over paragraph texts agrees with the library
`List.intercalate`. -/
theorem pyJoin_eq_intercalate (sep : List Char) :
    ∀ ps : List (List Char), pyJoin sep ps = List.intercalate sep ps
  | [] => by simp [pyJoin, List.intercalate]
  | [x] => by simp [pyJoin, List.intercalate, List.intersperse]
  | x :: y :: xs => by
    rw [pyJoin, pyJoin_eq_intercalate sep (y :: xs)]
    simp [List.intercalate, List.intersperse]

/-- A list with the graph keyword as a prefix is non-empty. -/
theorem ne_nil_of_graph_start {l : List Char} (h : graphKeyword <+: l) : l ≠ [] := by
  intro hnil
  rw [hnil] at h
  exact absurd h.length_le (by decide)

/-! ## Claim theorems -/

/-- C1 (counterexample): on the uploaded-document path, a docx whose two
paragraphs are both empty extracts to a single newline, which is empty after
trimming, yet the generate handler still reaches the LLM (call count 1) and
answers 200 instead of rejecting the request. -/
theorem generate_docx_empty_after_trim_reaches_llm :
    extract_text_from_docx (Except.ok [[], []]) = some "\n".data ∧
    pyStrip "\n".data = [] ∧
    generate_flowchart (some "k".data) (Except.ok "graph TD\nA-->B".data)
        ⟨some ⟨"a.docx".data, Except.ok [[], []]⟩, none⟩ =
      (HttpResponse.ok "graph TD\nA-->B".data, 1) := by
  decide

/-- C1 (amended): only the direct-text path rejects a description that is
empty after trimming whitespace; there the request is answered 400 before any
LLM call. -/
theorem generate_empty_text_rejected (key : Option (List Char))
    (llm : Except (List Char) (List Char)) (t : List Char) (h : pyStrip t = []) :
    generate_flowchart key llm ⟨none, some t⟩ =
      (HttpResponse.badRequest "Text input cannot be empty.".data, 0) := by
  simp [generate_flowchart, h]

/-- C1 (witness): whitespace-only direct text is rejected with no LLM call. -/
theorem generate_empty_text_rejected_witness :
    pyStrip "   ".data = [] ∧
    generate_flowchart (some "k".data) (Except.ok "graph TD".data) ⟨none, some "   ".data⟩ =
      (HttpResponse.badRequest "Text input cannot be empty.".data, 0) :=
  ⟨by decide, generate_empty_text_rejected (some "k".data) (Except.ok "graph TD".data)
      "   ".data (by decide)⟩

/-- C2 (counterexample): on a non-conforming LLM reply the refine endpoint
does not return the current diagram followed by a newline and the diagnostic
comment; the appended annotation starts with a literal backslash-n
two-character sequence, not a newline character. -/
theorem refine_invalid_reply_annotation_not_newline :
    refine_flowchart (some "k".data) (Except.ok "I cannot draw that diagram".data)
        (some ⟨some "graph TD\nA-->B".data, some "add a step C after B".data, false⟩) ≠
      (HttpResponse.ok ("graph TD\nA-->B".data ++
        "\n%% LLM Error: Invalid refinement response".data), 1) := by
  decide

/-- C2 (amended): when the sanitized LLM reply does not start with the graph
keyword, the refine endpoint answers 200 with exactly the current diagram
followed by the characters backslash, n, and the diagnostic comment text (the
Python literal is a backslash-n escape inside a regular string, so the
annotation begins with those two characters rather than a newline). -/
theorem refine_invalid_reply_appends_backslash_n (k cur instr reply : List Char)
    (hk : k.isEmpty = false) (hc : cur.isEmpty = false) (hi : instr.isEmpty = false)
    (hv : graphKeyword.isPrefixOf (pyStrip (sanitizeReply reply)) = false) :
    refine_flowchart (some k) (Except.ok reply) (some ⟨some cur, some instr, false⟩) =
      (HttpResponse.ok (cur ++ "\\n%% LLM Error: Invalid refinement response".data), 1) := by
  simp [refine_flowchart, dictTruthy, call_llm_for_refinement, pyFalsyStr, hk, hc, hi, hv]

/-- C2 (witness): the concrete scenario of the claim, with the corrected
annotation. -/
theorem refine_invalid_reply_appends_backslash_n_witness :
    ("k".data.isEmpty = false) ∧
    (graphKeyword.isPrefixOf (pyStrip (sanitizeReply "no diagram available".data)) = false) ∧
    refine_flowchart (some "k".data) (Except.ok "no diagram available".data)
        (some ⟨some "graph TD\nA-->B".data, some "add a step C after B".data, false⟩) =
      (HttpResponse.ok ("graph TD\nA-->B".data ++
        "\\n%% LLM Error: Invalid refinement response".data), 1) :=
  ⟨by decide, by decide,
    refine_invalid_reply_appends_backslash_n "k".data "graph TD\nA-->B".data
      "add a step C after B".data "no diagram available".data
      (by decide) (by decide) (by decide) (by decide)⟩

/-- C3 (counterexample): the sanitization is not idempotent.  On six
backticks, one application leaves three backticks; a second application
removes them as a closing fence, yielding the empty string. -/
theorem sanitizeReply_not_idempotent :
    sanitizeReply (sanitizeReply "``````".data) ≠ sanitizeReply "``````".data := by
  decide

/-- C3 (amended): the sanitization is idempotent on every input whose single
application yields a string that neither starts with the opening marker nor
ends with the closing marker; re-stripping is only triggered when residual
fence markers survive the first pass. -/
theorem sanitizeReply_idem_of_clean (s : List Char)
    (h1 : mermaidFenceOpen.isPrefixOf (sanitizeReply s) = false)
    (h2 : fenceClose.isSuffixOf (sanitizeReply s) = false) :
    sanitizeReply (sanitizeReply s) = sanitizeReply s := by
  show stripCloseFence (stripOpenFence (pyStrip (sanitizeReply s))) = sanitizeReply s
  rw [sanitizeReply_stripped]
  simp [stripOpenFence, stripCloseFence, h1, h2]

/-- C3 (witness): a clean sanitized reply is a fixed point of the
sanitization. -/
theorem sanitizeReply_idem_of_clean_witness :
    mermaidFenceOpen.isPrefixOf (sanitizeReply "graph TD".data) = false ∧
    fenceClose.isSuffixOf (sanitizeReply "graph TD".data) = false ∧
    sanitizeReply (sanitizeReply "graph TD".data) = sanitizeReply "graph TD".data :=
  ⟨by decide, by decide, sanitizeReply_idem_of_clean "graph TD".data (by decide) (by decide)⟩

/-- C4: the generate endpoint, on the text input of the scenario and an LLM
reply wrapped in a mermaid fenced code block, strips both fence markers,
passes validation, and answers 200 with the bare diagram. -/
theorem generate_fenced_reply_scenario :
    generate_flowchart (some "k".data)
        (Except.ok "```mermaid\ngraph TD\nA-->B\n```".data)
        ⟨none, some "User logs in, then sees dashboard".data⟩ =
      (HttpResponse.ok "graph TD\nA-->B".data, 1) := by
  decide

/-- C5: with a configured key, an exception from the LLM call is absorbed by
both helpers: synthesis returns a degraded diagram that starts with the graph
keyword and embeds the exception text, and refinement returns the current
diagram extended with an annotation embedding the exception text. -/
theorem llm_exception_never_propagates (key e cur instr : List Char)
    (hk : key.isEmpty = false) :
    e <:+: (call_llm_for_initial_flowchart (some key) (Except.error e)).1 ∧
    graphKeyword <+: (call_llm_for_initial_flowchart (some key) (Except.error e)).1 ∧
    cur <+: (call_llm_for_refinement (some key) cur instr (Except.error e)).1 ∧
    e <:+: (call_llm_for_refinement (some key) cur instr (Except.error e)).1 := by
  have h1 : call_llm_for_initial_flowchart (some key) (Except.error e) =
      ("graph TD\\nError[Error calling LLM: ".data ++ e ++ "]".data, 1) := by
    simp [call_llm_for_initial_flowchart, pyFalsyStr, hk]
  have h2 : call_llm_for_refinement (some key) cur instr (Except.error e) =
      (cur ++ "\\n%% LLM Error: ".data ++ e, 1) := by
    simp [call_llm_for_refinement, pyFalsyStr, hk]
  rw [h1, h2]
  refine ⟨⟨"graph TD\\nError[Error calling LLM: ".data, "]".data, by simp⟩, ?_,
    ⟨"\\n%% LLM Error: ".data ++ e, by simp⟩, ⟨cur ++ "\\n%% LLM Error: ".data, [], by simp⟩⟩
  show graphKeyword <+: "graph TD\\nError[Error calling LLM: ".data ++ e ++ "]".data
  exact List.IsPrefix.trans
    (show graphKeyword <+: "graph TD\\nError[Error calling LLM: ".data by decide)
    (List.prefix_append _ _)

/-- C5 (witness): a concrete timeout exception is absorbed on both paths. -/
theorem llm_exception_never_propagates_witness :
    ("k".data.isEmpty = false) ∧
    ("Connection timeout".data <:+:
        (call_llm_for_initial_flowchart (some "k".data)
          (Except.error "Connection timeout".data)).1 ∧
      graphKeyword <+: (call_llm_for_initial_flowchart (some "k".data)
          (Except.error "Connection timeout".data)).1 ∧
      "graph TD".data <+: (call_llm_for_refinement (some "k".data) "graph TD".data
          "add C".data (Except.error "Connection timeout".data)).1 ∧
      "Connection timeout".data <:+: (call_llm_for_refinement (some "k".data) "graph TD".data
          "add C".data (Except.error "Connection timeout".data)).1) :=
  ⟨by decide, llm_exception_never_propagates "k".data "Connection timeout".data
      "graph TD".data "add C".data (by decide)⟩

/-- C6: with no configured credential, synthesis returns the fixed diagram
signalling a missing API key and performs no LLM call, and refinement returns
the current diagram with an appended credential-error annotation and performs
no LLM call. -/
theorem missing_credential_degrades_without_llm_call (key : Option (List Char))
    (cur instr : List Char) (llm : Except (List Char) (List Char))
    (hk : pyFalsyStr key = true) :
    call_llm_for_initial_flowchart key llm =
      ("graph TD\\nError[LLM API Key Not Configured]".data, 0) ∧
    "API Key Not Configured".data <:+: (call_llm_for_initial_flowchart key llm).1 ∧
    call_llm_for_refinement key cur instr llm =
      (cur ++ "\\n%% Error: LLM API Key Not Configured".data, 0) ∧
    cur <+: (call_llm_for_refinement key cur instr llm).1 := by
  have h1 : call_llm_for_initial_flowchart key llm =
      ("graph TD\\nError[LLM API Key Not Configured]".data, 0) := by
    simp [call_llm_for_initial_flowchart, hk]
  have h2 : call_llm_for_refinement key cur instr llm =
      (cur ++ "\\n%% Error: LLM API Key Not Configured".data, 0) := by
    simp [call_llm_for_refinement, hk]
  refine ⟨h1, ?_, h2, ?_⟩
  · rw [h1]
    decide
  · rw [h2]
    exact List.prefix_append _ _

/-- C6 (witness): the unset-key case at concrete inputs. -/
theorem missing_credential_degrades_without_llm_call_witness :
    pyFalsyStr none = true ∧
    (call_llm_for_initial_flowchart none (Except.ok "x".data) =
        ("graph TD\\nError[LLM API Key Not Configured]".data, 0) ∧
      "API Key Not Configured".data <:+:
        (call_llm_for_initial_flowchart none (Except.ok "x".data)).1 ∧
      call_llm_for_refinement none "graph TD".data "add C".data (Except.ok "x".data) =
        ("graph TD".data ++ "\\n%% Error: LLM API Key Not Configured".data, 0) ∧
      "graph TD".data <+:
        (call_llm_for_refinement none "graph TD".data "add C".data (Except.ok "x".data)).1) :=
  ⟨by decide, missing_credential_degrades_without_llm_call none "graph TD".data
      "add C".data (Except.ok "x".data) (by decide)⟩

/-- C7 (counterexample): an entirely empty JSON object lacks both keys, yet
the handler answers with the invalid-request-data message, not the
missing-field message, because the parsed empty dict is falsy in Python. -/
theorem refine_empty_json_object_other_error :
    refine_flowchart (some "k".data) (Except.ok "graph TD".data)
        (some ⟨none, none, false⟩) =
      (HttpResponse.badRequest "Invalid request data. Expected JSON.".data, 0) ∧
    (HttpResponse.badRequest "Invalid request data. Expected JSON.".data : HttpResponse) ≠
      HttpResponse.badRequest
        "Missing \x27current_mermaid\x27 or \x27instruction\x27 in request.".data := by
  decide

/-- C7 (amended): a refine request whose JSON object lacks the instruction key
or the current-mermaid key answers 400 with the exact missing-field message
and performs no LLM call, provided the object is non-empty (a wholly empty
object instead trips the earlier invalid-request-data check). -/
theorem refine_missing_field_rejected (key : Option (List Char))
    (llm : Except (List Char) (List Char)) (d : RefineBody)
    (hmiss : d.current_mermaid = none ∨ d.instruction = none)
    (hne : dictTruthy d = true) :
    refine_flowchart key llm (some d) =
      (HttpResponse.badRequest
        "Missing \x27current_mermaid\x27 or \x27instruction\x27 in request.".data, 0) := by
  obtain ⟨c, i, x⟩ := d
  rcases hmiss with h | h
  · subst h
    cases i <;> simp_all [refine_flowchart, dictTruthy]
  · subst h
    cases c <;> simp_all [refine_flowchart, dictTruthy]

/-- C7 (witness): a body with a diagram but no instruction key is rejected
without an LLM call. -/
theorem refine_missing_field_rejected_witness :
    dictTruthy ⟨some "graph TD".data, none, false⟩ = true ∧
    refine_flowchart (some "k".data) (Except.ok "graph TD".data)
        (some ⟨some "graph TD".data, none, false⟩) =
      (HttpResponse.badRequest
        "Missing \x27current_mermaid\x27 or \x27instruction\x27 in request.".data, 0) :=
  ⟨by decide, refine_missing_field_rejected (some "k".data) (Except.ok "graph TD".data)
      ⟨some "graph TD".data, none, false⟩ (Or.inr rfl) (by decide)⟩

/-- C8: document extraction joins the paragraph texts with single newline
separators, preserving empty paragraphs as empty lines; in particular the
three paragraphs of the scenario extract to the expected two-line-gap text. -/
theorem extract_text_joins_with_newlines :
    (∀ ps : List (List Char), extract_text_from_docx (Except.ok ps) =
        some (List.intercalate "\n".data ps)) ∧
    extract_text_from_docx (Except.ok ["Step 1".data, [], "Step 2".data]) =
      some "Step 1\n\nStep 2".data :=
  ⟨fun ps => by simp [extract_text_from_docx, pyJoin_eq_intercalate], by decide⟩

/-- C9: on every branch (missing credential, caught exception, failed
validation, validated reply), the synthesis helper returns a non-empty string
starting with the case-sensitive keyword graph. -/
theorem synthesize_result_always_starts_with_graph (key : Option (List Char))
    (llm : Except (List Char) (List Char)) :
    (call_llm_for_initial_flowchart key llm).1 ≠ [] ∧
    graphKeyword <+: (call_llm_for_initial_flowchart key llm).1 := by
  unfold call_llm_for_initial_flowchart
  split
  · exact ⟨by decide, by decide⟩
  · cases llm with
    | error e =>
        have hp : graphKeyword <+:
            "graph TD\\nError[Error calling LLM: ".data ++ e ++ "]".data :=
          List.IsPrefix.trans
            (show graphKeyword <+: "graph TD\\nError[Error calling LLM: ".data by decide)
            (List.prefix_append _ _)
        exact ⟨ne_nil_of_graph_start hp, hp⟩
    | ok content =>
        dsimp only
        split
        · exact ⟨by decide, by decide⟩
        · case _ h =>
            have hb : graphKeyword.isPrefixOf (pyStrip (sanitizeReply content)) = true := by
              revert h
              cases graphKeyword.isPrefixOf (pyStrip (sanitizeReply content)) <;> simp
            rw [List.isPrefixOf_iff_prefix, sanitizeReply_stripped] at hb
            exact ⟨ne_nil_of_graph_start hb, hb⟩

/-- C10: the refine endpoint treats an empty-string field value like an
absent key: a present but empty current-mermaid or instruction value draws
the same 400 missing-field response, with no LLM call, as a body without the
instruction key. -/
theorem refine_empty_string_fields_rejected (key : Option (List Char))
    (llm : Except (List Char) (List Char)) (c i : Option (List Char)) (x : Bool) :
    refine_flowchart key llm (some ⟨some [], i, x⟩) =
      (HttpResponse.badRequest
        "Missing \x27current_mermaid\x27 or \x27instruction\x27 in request.".data, 0) ∧
    refine_flowchart key llm (some ⟨c, some [], x⟩) =
      (HttpResponse.badRequest
        "Missing \x27current_mermaid\x27 or \x27instruction\x27 in request.".data, 0) ∧
    refine_flowchart key llm (some ⟨c, some [], x⟩) =
      refine_flowchart key llm (some ⟨some "graph TD".data, none, false⟩) := by
  refine ⟨?_, ?_, ?_⟩
  · cases i <;> simp [refine_flowchart, dictTruthy]
  · cases c <;> simp [refine_flowchart, dictTruthy]
  · cases c <;> simp [refine_flowchart, dictTruthy]
